import Mathlib

/-!
Shallow embedding of the magellanicus renderer core (asset tables, BSP
validation and load-time normalization, viewport layout, camera mutation,
and per-frame draw ordering), with theorems checking the natural-language
specification against the code.

Conventions of the embedding:
* Rust `BTreeMap<Arc<String>, T>` tables are modelled as association lists
  with lookup/insert/contains functions matching BTreeMap's observable
  lookup semantics (insert replaces the value stored at an existing key).
* `f32` scalars are modelled as exact rationals.  Every claim checked here
  depends only on comparisons and field plumbing, never on rounding.
* Fallible Rust functions returning `MResult<T>` are modelled as `Except`.
  All load-time validation sites in the source construct their errors with
  `Error::DataError` (via `from_data_error_string`), so validation helpers
  return `Except String _` and the renderer-level operations wrap the
  string into the `Error.DataError` constructor.
* Methods taking `&mut self` are modelled by explicit state passing and
  return the pair (result, post-state); on the error paths the post-state
  is the unchanged input state exactly when the source performs no
  mutation before the failing check.
* GPU-side objects (`vulkano` buffers, images, futures) are external
  collaborators; only the data carried through them that later decisions
  read (the shader path stored in `VulkanBSPGeometryData.shader`, the
  `is_transparent` flag of a loaded material) is represented.
-/

namespace Mag

/-- Decidable equality for `Except`, used to evaluate validation results
on concrete inputs. -/
instance instDecEqExcept {e a : Type} [DecidableEq e] [DecidableEq a] :
    DecidableEq (Except e a) := fun x y =>
  match x, y with
  | Except.ok u, Except.ok v =>
      if h : u = v then isTrue (by rw [h])
      else isFalse (by intro hc; cases hc; exact h rfl)
  | Except.error u, Except.error v =>
      if h : u = v then isTrue (by rw [h])
      else isFalse (by intro hc; cases hc; exact h rfl)
  | Except.ok _, Except.error _ => isFalse (by intro hc; cases hc)
  | Except.error _, Except.ok _ => isFalse (by intro hc; cases hc)

/-- Association-list model of `BTreeMap<Arc<String>, T>`: lookup. -/
def mget {α : Type} : List (String × α) → String → Option α
  | [], _ => none
  | (k, v) :: rest, key => if k = key then some v else mget rest key

/-- Association-list model of `BTreeMap::insert`: replaces the value at an
existing key, otherwise appends a fresh entry. -/
def minsert {α : Type} : List (String × α) → String → α → List (String × α)
  | [], key, v => [(key, v)]
  | (k, w) :: rest, key, v =>
      if k = key then (key, v) :: rest else (k, w) :: minsert rest key v

/-- Association-list model of `BTreeMap::contains_key`. -/
def mcontains {α : Type} (m : List (String × α)) (key : String) : Bool :=
  (mget m key).isSome

/-- `error.rs`: the two top-level error kinds. -/
inductive Error : Type
  | DataError (error : String)
  | GraphicsAPIError (backend : String) (error : String)
deriving DecidableEq

/-- `error.rs`: `MResult<T>`. -/
abbrev MResult (α : Type) := Except Error α

/-- `parameters.rs`: `Resolution`. -/
structure Resolution where
  width : Nat
  height : Nat
deriving DecidableEq

/-- `parameters.rs`: `MSAA`. -/
inductive MSAA : Type
  | NoMSAA
  | MSAA2x
  | MSAA4x
  | MSAA8x
  | MSAA16x
deriving DecidableEq

/-- `parameters.rs`: `RendererParameters`. -/
structure RendererParameters where
  resolution : Resolution
  numberOfViewports : Nat
  vsync : Bool
  msaa : MSAA

/-- The exact rational value of the 32-bit float constant
`core::f32::consts::PI` (0x40490FDB). -/
def f32Pi : ℚ := mkRat 13176795 4194304

/-- `player_viewport.rs`: `Camera` (fov in radians, position, rotation). -/
structure Camera where
  fov : ℚ
  position : ℚ × ℚ × ℚ
  rotation : ℚ × ℚ × ℚ
deriving DecidableEq

/-- `Camera::default`'s fov is `70.0f32.to_radians()`; the claims never
inspect this value, so the f32 rounding of the conversion is not tracked
and the product below stands in for it. -/
def defaultCameraFov : ℚ := 70 * f32Pi / 180

/-- `player_viewport.rs`: `Camera::default`. -/
def defaultCamera : Camera :=
  { fov := defaultCameraFov, position := (0, 0, 0), rotation := (0, 1, 0) }

/-- `player_viewport.rs`: `PlayerViewport` (relative rectangle + camera). -/
structure PlayerViewport where
  relX : ℚ
  relY : ℚ
  relWidth : ℚ
  relHeight : ℚ
  camera : Camera
deriving DecidableEq

/-- `player_viewport.rs`: `PlayerViewport::default`. -/
def defaultPlayerViewport : PlayerViewport :=
  { relX := 0, relY := 0, relWidth := 1, relHeight := 1, camera := defaultCamera }

/-- `data/bitmap.rs`: `BitmapType`. -/
inductive BitmapType : Type
  | Dim2D
  | Dim3D (depth : Nat)
  | Cubemap
deriving DecidableEq

/-- `data/bitmap.rs`: `BitmapSprite`. -/
structure BitmapSprite where
  bitmap : Nat
  top : ℚ
  left : ℚ
  bottom : ℚ
  right : ℚ
deriving DecidableEq

/-- `data/bitmap.rs`: `BitmapSequence`. -/
inductive BitmapSequence : Type
  | Bitmap (first : Nat) (count : Nat)
  | Sprites (sprites : List BitmapSprite)
deriving DecidableEq

/-- `data/bitmap.rs`: `BitmapBitmap` (the `vulkan` GPU handle is external
and not represented). -/
structure BitmapBitmap where
  resolution : Resolution
  bitmapType : BitmapType
deriving DecidableEq

/-- `data/bitmap.rs`: `Bitmap`. -/
structure Bitmap where
  bitmaps : List BitmapBitmap
  sequences : List BitmapSequence
deriving DecidableEq

/-- `data/bitmap.rs`: `DefaultBitmaps` (paths of the three designated
default bitmaps). -/
structure DefaultBitmaps where
  default2d : String
  default3d : String
  defaultCubemap : String
deriving DecidableEq

/-- `renderer.rs`: `SetDefaultBitmaps` parameter triple. -/
structure SetDefaultBitmaps where
  default2d : String
  default3d : String
  defaultCubemap : String

/-- `data/shader.rs`: `ShaderType`. -/
inductive ShaderType : Type
  | Environment
  | Model
  | TransparentGeneric
  | TransparentChicago
  | TransparentGlass
  | TransparentMeter
  | TransparentPlasma
  | TransparentWater
deriving DecidableEq

/-- `data/shader.rs` + `vulkan/material.rs`: a loaded shader.  The
`isTransparent` field embeds the dynamic `VulkanMaterial::is_transparent`
method of `vulkan.pipeline_data` (a per-shader property read by the frame
composer's opaque/transparent partition). -/
structure Shader where
  shaderType : ShaderType
  isTransparent : Bool
deriving DecidableEq

/-- `data/sky.rs`-backed `Sky` record as built by `Renderer::add_sky`. -/
structure Sky where
  geometry : Option String
  outdoorFogColor : ℚ × ℚ × ℚ
  outdoorFogMaximumDensity : ℚ
  outdoorFogStartDistance : ℚ
  outdoorFogOpaqueDistance : ℚ
  indoorFogColor : ℚ × ℚ × ℚ
  indoorFogMaximumDensity : ℚ
  indoorFogStartDistance : ℚ
  indoorFogOpaqueDistance : ℚ
deriving DecidableEq

/-- `parameters/sky.rs`: `AddSkyParameter`. -/
structure AddSkyParameter where
  geometry : Option String
  outdoorFogColor : ℚ × ℚ × ℚ
  outdoorFogMaximumDensity : ℚ
  outdoorFogStartDistance : ℚ
  outdoorFogOpaqueDistance : ℚ
  indoorFogColor : ℚ × ℚ × ℚ
  indoorFogMaximumDensity : ℚ
  indoorFogStartDistance : ℚ
  indoorFogOpaqueDistance : ℚ

/-- `vertex.rs`: `ModelVertex`. -/
structure ModelVertex where
  position : ℚ × ℚ × ℚ
  normal : ℚ × ℚ × ℚ
  binormal : ℚ × ℚ × ℚ
  tangent : ℚ × ℚ × ℚ
  textureCoords : ℚ × ℚ
deriving DecidableEq

/-- `vertex.rs`: `LightmapVertex`. -/
structure LightmapVertex where
  lightmapTextureCoords : ℚ × ℚ
deriving DecidableEq

/-- `vertex.rs`: `ModelTriangle` (u16 index triples; the claims never
exercise u16 overflow, so plain naturals are used). -/
structure ModelTriangle where
  indices : Nat × Nat × Nat
deriving DecidableEq

/-- `parameters/bsp.rs`: `BSP3DNodeChild`. -/
inductive BSP3DNodeChild : Type
  | node (n : Nat)
  | leaf (n : Nat)
deriving DecidableEq

/-- `parameters/bsp.rs`: `BSP3DNode`. -/
structure BSP3DNode where
  frontChild : Option BSP3DNodeChild
  backChild : Option BSP3DNodeChild
  plane : Nat
deriving DecidableEq

instance : Inhabited BSP3DNode := ⟨⟨none, none, 0⟩⟩

/-- `parameters/bsp.rs`: `BSP3DPlane`. -/
structure BSP3DPlane where
  angle : ℚ × ℚ × ℚ
  offset : ℚ
deriving DecidableEq

instance : Inhabited BSP3DPlane := ⟨⟨(0, 0, 0), 0⟩⟩

/-- `parameters/bsp.rs`: `BSPLeaf`. -/
structure BSPLeaf where
  cluster : Nat
deriving DecidableEq

/-- `parameters/bsp.rs`: `BSPSubcluster`. -/
structure BSPSubcluster where
  surfaceIndices : List Nat
  worldBoundsFrom : ℚ × ℚ × ℚ
  worldBoundsTo : ℚ × ℚ × ℚ
deriving DecidableEq

/-- `parameters/bsp.rs`: `BSPCluster`. -/
structure BSPCluster where
  sky : Option String
  subclusters : List BSPSubcluster
  clusterPortals : List Nat
deriving DecidableEq

instance : Inhabited BSPCluster := ⟨⟨none, [], []⟩⟩

/-- `parameters/bsp.rs`: `BSPPortal`. -/
structure BSPPortal where
  frontCluster : Nat
  backCluster : Nat
deriving DecidableEq

/-- `parameters/bsp.rs`: `BSPData`. -/
structure BSPData where
  nodes : List BSP3DNode
  planes : List BSP3DPlane
  leaves : List BSPLeaf
  clusters : List BSPCluster
  portals : List BSPPortal
deriving DecidableEq

/-- `parameters/bsp.rs`: `AddBSPParameterLightmapMaterial`. -/
structure AddBSPParameterLightmapMaterial where
  shaderVertices : List ModelVertex
  lightmapVertices : Option (List LightmapVertex)
  surfaces : List ModelTriangle
  shader : String
deriving DecidableEq

/-- `parameters/bsp.rs`: `AddBSPParameterLightmapSet`. -/
structure AddBSPParameterLightmapSet where
  lightmapIndex : Option Nat
  materials : List AddBSPParameterLightmapMaterial
deriving DecidableEq

/-- `parameters/bsp.rs`: `AddBSPParameter`. -/
structure AddBSPParameter where
  lightmapBitmap : Option String
  lightmapSets : List AddBSPParameterLightmapSet
  bspData : BSPData
deriving DecidableEq

/-- `data/bsp.rs`: `BSPGeometry`; the GPU buffers of
`VulkanBSPGeometryData` are external, but its `shader` field (the shader
table key, used to sort and to resolve the material at draw time) is kept. -/
structure BSPGeometry where
  shader : String
  lightmapIndex : Option Nat
  materialReflexiveIndex : Nat
  lightmapReflexiveIndex : Nat
deriving DecidableEq

instance : Inhabited BSPGeometry := ⟨⟨"", none, 0, 0⟩⟩

/-- `data/bsp.rs`: the loaded `BSP` record.  `vulkan` (GPU buffers) and
`draw_distance` (an f32 square-root computation no claim depends on) are
not represented. -/
structure BSPLoaded where
  geometries : List BSPGeometry
  bspData : BSPData
  clusterSurfaces : List (List Nat)
  geometryIndicesSortedByMaterial : List Nat
deriving DecidableEq

/-- `parameters/shader.rs`: `ShaderEnvironmentType`. -/
inductive ShaderEnvironmentType : Type
  | Normal
  | Blended
  | BlendedBaseSpecular
deriving DecidableEq

/-- `parameters/shader.rs`: `ShaderEnvironmentMapFunction`. -/
inductive ShaderEnvironmentMapFunction : Type
  | DoubleBiasedMultiply
  | Multiply
  | DoubleBiasedAdd
deriving DecidableEq

/-- `parameters/shader.rs`: `ShaderReflectionType`. -/
inductive ShaderReflectionType : Type
  | BumpedCubeMap
  | FlatCubeMap
  | BumpedRadiosity
deriving DecidableEq

/-- `parameters/shader.rs`: `AddShaderBasicShaderData`. -/
structure AddShaderBasicShaderData where
  bitmap : Option String
  shaderType : ShaderType
  alphaTested : Bool

/-- `parameters/shader.rs`: `AddShaderEnvironmentShaderData`. -/
structure AddShaderEnvironmentShaderData where
  alphaTested : Bool
  shaderEnvironmentType : ShaderEnvironmentType
  baseMap : Option String
  detailMapFunction : ShaderEnvironmentMapFunction
  primaryDetailMap : Option String
  primaryDetailMapScale : ℚ
  secondaryDetailMap : Option String
  secondaryDetailMapScale : ℚ
  microDetailMap : Option String
  microDetailMapScale : ℚ
  microDetailMapFunction : ShaderEnvironmentMapFunction
  bumpMap : Option String
  bumpMapScale : ℚ
  reflectionCubeMap : Option String
  reflectionType : ShaderReflectionType

/-- `parameters/shader.rs`: `AddShaderData`. -/
inductive AddShaderData : Type
  | BasicShader (data : AddShaderBasicShaderData)
  | ShaderEnvironment (data : AddShaderEnvironmentShaderData)

/-- `parameters/shader.rs`: `AddShaderParameter`. -/
structure AddShaderParameter where
  data : AddShaderData

/-- `renderer.rs`: the `Renderer` state owned by the library (the
`VulkanRenderer` GPU backend field is an external collaborator). -/
structure RendererState where
  bitmaps : List (String × Bitmap)
  shaders : List (String × Shader)
  geometries : List (String × Unit)
  skies : List (String × Sky)
  bsps : List (String × BSPLoaded)
  defaultBitmaps : Option DefaultBitmaps
  currentBsp : Option String
  playerViewports : List PlayerViewport

/-- `parameters/sky.rs`: `AddSkyParameter::validate`.  All failure sites
use `from_data_error_string`, i.e. produce data errors. -/
def skyValidate (p : AddSkyParameter) (s : RendererState) : Except String Unit :=
  if ¬(0 ≤ p.outdoorFogMaximumDensity ∧ p.outdoorFogMaximumDensity ≤ 1) then
    .error "Outdoor fog density is not between 0 and 1"
  else if ¬(0 ≤ p.indoorFogMaximumDensity ∧ p.indoorFogMaximumDensity ≤ 1) then
    .error "Indoor fog density is not between 0 and 1"
  else if p.outdoorFogStartDistance > p.outdoorFogOpaqueDistance ∨ p.outdoorFogStartDistance < 0 then
    .error "Outdoor fog starting distance is not between 0.0 and the opaque distance"
  else if p.indoorFogStartDistance > p.indoorFogOpaqueDistance ∨ p.indoorFogStartDistance < 0 then
    .error "Indoor fog starting distance is not between 0.0 and the opaque distance"
  else
    match p.geometry with
    | some g =>
        if ¬ mcontains s.geometries g then
          .error "Fog references skybox geometry which is not loaded"
        else .ok ()
    | none => .ok ()

/-- `renderer.rs`: `Renderer::add_sky`.  The source performs no
duplicate-path check: it validates and then unconditionally inserts
(`BTreeMap::insert` replaces the value stored at an existing key).  The
stored geometry field is the table key resolved by `get_key_value`, equal
as a string to the parameter's geometry path. -/
def addSky (s : RendererState) (path : String) (p : AddSkyParameter) :
    MResult Unit × RendererState :=
  match skyValidate p s with
  | .error e => (.error (Error.DataError e), s)
  | .ok _ =>
      let sky : Sky :=
        { geometry := p.geometry
          outdoorFogColor := p.outdoorFogColor
          outdoorFogMaximumDensity := p.outdoorFogMaximumDensity
          outdoorFogStartDistance := p.outdoorFogStartDistance
          outdoorFogOpaqueDistance := p.outdoorFogOpaqueDistance
          indoorFogColor := p.indoorFogColor
          indoorFogMaximumDensity := p.indoorFogMaximumDensity
          indoorFogStartDistance := p.indoorFogStartDistance
          indoorFogOpaqueDistance := p.indoorFogOpaqueDistance }
      (.ok (), { s with skies := minsert s.skies path sky })

/-- `parameters/shader.rs`: `expect_bitmap_or_else` — error if any
sub-bitmap of the referenced bitmap has the wrong dimensionality. -/
def expectBitmapOrElse (bitmap : Bitmap) (bitmapType : BitmapType) : Except String Unit :=
  if bitmap.bitmaps.all (fun a => a.bitmapType = bitmapType) then .ok ()
  else .error "a sub-bitmap has the wrong bitmap type"

/-- `parameters/shader.rs`: `check_bitmap`. -/
def checkBitmap (s : RendererState) (reference : Option String)
    (bitmapType : BitmapType) : Except String Unit :=
  match reference with
  | none => .ok ()
  | some bitmapPath =>
      match mget s.bitmaps bitmapPath with
      | none => .error "referenced map is not loaded"
      | some bitmap => expectBitmapOrElse bitmap bitmapType

/-- `parameters/shader.rs`: `AddShaderEnvironmentShaderData::validate`. -/
def shaderEnvironmentValidate (d : AddShaderEnvironmentShaderData)
    (s : RendererState) : Except String Unit :=
  match checkBitmap s d.baseMap BitmapType.Dim2D with
  | .error e => .error e
  | .ok _ =>
  match checkBitmap s d.primaryDetailMap BitmapType.Dim2D with
  | .error e => .error e
  | .ok _ =>
  match checkBitmap s d.secondaryDetailMap BitmapType.Dim2D with
  | .error e => .error e
  | .ok _ =>
  match checkBitmap s d.microDetailMap BitmapType.Dim2D with
  | .error e => .error e
  | .ok _ =>
  match checkBitmap s d.bumpMap BitmapType.Dim2D with
  | .error e => .error e
  | .ok _ => checkBitmap s d.reflectionCubeMap BitmapType.Cubemap

/-- `parameters/shader.rs`: `AddShaderParameter::validate`. -/
def shaderValidate (p : AddShaderParameter) (s : RendererState) : Except String Unit :=
  match p.data with
  | AddShaderData.BasicShader d =>
      match d.bitmap with
      | some b =>
          if ¬ mcontains s.bitmaps b then .error "Referenced bitmap is not loaded."
          else .ok ()
      | none => .ok ()
  | AddShaderData.ShaderEnvironment d => shaderEnvironmentValidate d s

/-- `data/shader.rs`: `Shader::load_from_parameters` combined with
`vulkan/material.rs`: both material kinds (`VulkanSimpleShaderMaterial`,
`VulkanShaderEnvironmentMaterial`) inherit the default
`VulkanMaterial::is_transparent`, which returns `false`. -/
def loadShaderFromParameters (p : AddShaderParameter) : Shader :=
  { shaderType :=
      match p.data with
      | AddShaderData.BasicShader d => d.shaderType
      | AddShaderData.ShaderEnvironment _ => ShaderType.Environment
    isTransparent := false }

/-- `renderer.rs`: `Renderer::add_shader` (duplicate-path guard on the
shaders table, validate, load, insert). -/
def addShader (s : RendererState) (path : String) (p : AddShaderParameter) :
    MResult Unit × RendererState :=
  if mcontains s.shaders path then
    (.error (Error.DataError "path already exists (replacing shaders is not yet supported)"), s)
  else
    match shaderValidate p s with
    | .error e => (.error (Error.DataError e), s)
    | .ok _ =>
        (.ok (), { s with shaders := minsert s.shaders path (loadShaderFromParameters p) })

/-- `renderer.rs`: the pure prefix of `Renderer::new` — the resolution
check and the viewport layout table.  (The subsequent `VulkanRenderer::new`
GPU initialization is an external collaborator and can only add
graphics-backend errors, never change the layout.) -/
def rendererNewViewports (parameters : RendererParameters) :
    MResult (List PlayerViewport) :=
  if parameters.resolution.height = 0 ∨ parameters.resolution.width = 0 then
    .error (Error.DataError "resolution has 0 on one or more dimensions")
  else
    match parameters.numberOfViewports with
    | 1 => .ok [{ defaultPlayerViewport with relX := 0, relY := 0, relWidth := 1, relHeight := 1 }]
    | 2 => .ok
        [{ defaultPlayerViewport with relX := 0, relY := 0, relWidth := 1, relHeight := 1/2 },
         { defaultPlayerViewport with relX := 0, relY := 1/2, relWidth := 1, relHeight := 1/2 }]
    | 3 => .ok
        [{ defaultPlayerViewport with relX := 0, relY := 0, relWidth := 1, relHeight := 1/2 },
         { defaultPlayerViewport with relX := 0, relY := 1/2, relWidth := 1/2, relHeight := 1/2 },
         { defaultPlayerViewport with relX := 1/2, relY := 1/2, relWidth := 1/2, relHeight := 1/2 }]
    | 4 => .ok
        [{ defaultPlayerViewport with relX := 0, relY := 0, relWidth := 1/2, relHeight := 1/2 },
         { defaultPlayerViewport with relX := 1/2, relY := 0, relWidth := 1/2, relHeight := 1/2 },
         { defaultPlayerViewport with relX := 0, relY := 1/2, relWidth := 1/2, relHeight := 1/2 },
         { defaultPlayerViewport with relX := 1/2, relY := 1/2, relWidth := 1/2, relHeight := 1/2 }]
    | _ => .error (Error.DataError "number of viewports is not supported, only 1-4 are")

/-- `renderer.rs`: `Renderer::reset` — clears the five asset tables, the
current BSP and the default bitmaps; the viewports are untouched. -/
def reset (s : RendererState) : RendererState :=
  { s with
    bitmaps := []
    shaders := []
    geometries := []
    skies := []
    bsps := []
    currentBsp := none
    defaultBitmaps := none }

/-- `renderer.rs`: predicate of `set_default_bitmaps`' per-slot shape check
for the 2D slot: exactly 4 sub-bitmaps, all `Dim2D`, and every sequence is
the `Bitmap` variant. -/
def defaultBitmapCheck2D (b : Bitmap) : Bool :=
  b.bitmaps.length = 4 &&
    b.bitmaps.all (fun x => x.bitmapType = BitmapType.Dim2D) &&
    b.sequences.all (fun x => match x with | BitmapSequence.Bitmap _ _ => true | _ => false)

/-- `renderer.rs`: shape check for the 3D slot (`matches!(.., Dim3D { .. })`
accepts any depth). -/
def defaultBitmapCheck3D (b : Bitmap) : Bool :=
  b.bitmaps.length = 4 &&
    b.bitmaps.all (fun x => match x.bitmapType with | BitmapType.Dim3D _ => true | _ => false) &&
    b.sequences.all (fun x => match x with | BitmapSequence.Bitmap _ _ => true | _ => false)

/-- `renderer.rs`: shape check for the cubemap slot. -/
def defaultBitmapCheckCubemap (b : Bitmap) : Bool :=
  b.bitmaps.length = 4 &&
    b.bitmaps.all (fun x => x.bitmapType = BitmapType.Cubemap) &&
    b.sequences.all (fun x => match x with | BitmapSequence.Bitmap _ _ => true | _ => false)

/-- `renderer.rs`: `Renderer::set_default_bitmaps`. -/
def setDefaultBitmaps (s : RendererState) (p : SetDefaultBitmaps) :
    MResult Unit × RendererState :=
  if s.defaultBitmaps.isSome then
    (.error (Error.DataError "default bitmaps already set; use clear() to clear these"), s)
  else
    match mget s.bitmaps p.default2d with
    | none => (.error (Error.DataError "the 2D bitmap was not loaded"), s)
    | some d2 =>
    match mget s.bitmaps p.default3d with
    | none => (.error (Error.DataError "the 3D bitmap was not loaded"), s)
    | some d3 =>
    match mget s.bitmaps p.defaultCubemap with
    | none => (.error (Error.DataError "the cubemap bitmap was not loaded"), s)
    | some dc =>
      if ¬ defaultBitmapCheck2D d2 then
        (.error (Error.DataError "bitmap is not 4x 2D bitmaps"), s)
      else if ¬ defaultBitmapCheck3D d3 then
        (.error (Error.DataError "bitmap is not 4x 3D bitmaps"), s)
      else if ¬ defaultBitmapCheckCubemap dc then
        (.error (Error.DataError "bitmap is not 4x cubemap bitmaps"), s)
      else
        let db : DefaultBitmaps :=
          { default2d := p.default2d
            default3d := p.default3d
            defaultCubemap := p.defaultCubemap }
        (.ok (), { s with defaultBitmaps := some db })

/-- Modelled from the spec: `glam::Vec3::try_normalize` is an external
library function (the glam crate, not part of this repository).  Per the
spec it normalizes the rotation vector and fails exactly on zero-length
input.  Exact square roots do not exist over the rationals, so the success
value divides by the squared Euclidean norm — a direction-preserving,
positive scaling; every claim checked here depends only on which inputs
fail and on the value being a function of the input. -/
def tryNormalize (v : ℚ × ℚ × ℚ) : Option (ℚ × ℚ × ℚ) :=
  if v = (0, 0, 0) then none
  else
    some (v.1 / (v.1 * v.1 + v.2.1 * v.2.1 + v.2.2 * v.2.2),
          v.2.1 / (v.1 * v.1 + v.2.1 * v.2.1 + v.2.2 * v.2.2),
          v.2.2 / (v.1 * v.1 + v.2.1 * v.2.1 + v.2.2 * v.2.2))

/-- `renderer.rs`: `Renderer::set_camera_for_viewport`.  The two panics of
the source (the fov assertion and out-of-bounds viewport indexing) are
modelled as `none`. -/
def setCameraForViewport (s : RendererState) (viewport : Nat) (camera : Camera) :
    Option RendererState :=
  if ¬(camera.fov > 0 ∧ camera.fov < f32Pi) then none
  else if h : viewport < s.playerViewports.length then
    let v := s.playerViewports.get ⟨viewport, h⟩
    let v2 : PlayerViewport :=
      { v with camera :=
        { position := camera.position
          rotation := (tryNormalize camera.rotation).getD (0, 1, 0)
          fov := camera.fov } }
    some { s with playerViewports := s.playerViewports.set viewport v2 }
  else none

/-- `renderer.rs`: `Renderer::get_camera` (out-of-bounds indexing panics,
modelled as `none`). -/
def getCamera (s : RendererState) (viewport : Nat) : Option Camera :=
  (s.playerViewports.get? viewport).map PlayerViewport.camera

/-- `parameters/bsp.rs`: `BSPData::validate_3d_node`.  `remaining_tests` is
the fuel: the source checks the per-node bitset first, then the budget,
decrements, and recurses into both children with the decremented budget;
fuel 0 yields the infinite-loop data error exactly as in the source.  The
inner `childStep` lambda embeds `BSPData::validate_child` (which the
source marks `inline(always)`): bounds-check a child reference, recurse
when it is a node. -/
def validate3DNode (b : BSPData) (node : Nat) (fuel : Nat) (t : List Bool) :
    Except String (List Bool) :=
  if t.getD node false then Except.ok t
  else
    match fuel with
    | 0 => Except.error "infinite loop detected when traversing nodes"
    | f + 1 =>
      let childStep : Option BSP3DNodeChild → List Bool → Except String (List Bool) :=
        fun child tt =>
          match child with
          | none => Except.ok tt
          | some (BSP3DNodeChild.node n) =>
              if n ≥ b.nodes.length then
                Except.error "broken BSP: a referenced child node does not exist"
              else validate3DNode b n f tt
          | some (BSP3DNodeChild.leaf l) =>
              if l ≥ b.leaves.length then
                Except.error "broken BSP: a referenced leaf does not exist"
              else Except.ok tt
      match childStep (b.nodes.getD node default).frontChild t with
      | Except.error e => Except.error e
      | Except.ok t1 =>
        match childStep (b.nodes.getD node default).backChild t1 with
        | Except.error e => Except.error e
        | Except.ok t2 => Except.ok (t2.set node true)

/-- `parameters/bsp.rs`: `BSPData::validate_child` as a standalone
function of the already-decremented budget, identical to the `childStep`
lambda inlined in `validate3DNode` (the source marks `validate_child`
`inline(always)`); used to state unfolding lemmas. -/
def validateChildFn (b : BSPData) (f : Nat) (c : Option BSP3DNodeChild)
    (t : List Bool) : Except String (List Bool) :=
  match c with
  | none => Except.ok t
  | some (BSP3DNodeChild.node n) =>
      if n ≥ b.nodes.length then
        Except.error "broken BSP: a referenced child node does not exist"
      else validate3DNode b n f t
  | some (BSP3DNodeChild.leaf l) =>
      if l ≥ b.leaves.length then
        Except.error "broken BSP: a referenced leaf does not exist"
      else Except.ok t

/-- `parameters/bsp.rs`: the node loop of `BSPData::validate` — every node
index is a traversal root with budget `node_count + 3`, against one shared
bitset. -/
def validateAllNodes (b : BSPData) : List Nat → List Bool → Except String (List Bool)
  | [], t => Except.ok t
  | i :: rest, t =>
      match validate3DNode b i (b.nodes.length + 3) t with
      | Except.error e => Except.error e
      | Except.ok t2 => validateAllNodes b rest t2

/-- `parameters/bsp.rs`: the leaf loop of `BSPData::validate`. -/
def checkLeaves (clusterCount : Nat) : List BSPLeaf → Except String Unit
  | [] => Except.ok ()
  | leaf :: rest =>
      if leaf.cluster ≥ clusterCount then
        Except.error "Leaf points to a cluster which does not exist"
      else checkLeaves clusterCount rest

/-- `parameters/bsp.rs`: `total_surface_count` — the flattened count of all
triangles over all lightmap sets and materials. -/
def totalSurfaceCount (p : AddBSPParameter) : Nat :=
  (p.lightmapSets.map (fun b => (b.materials.map (fun m => m.surfaces.length)).sum)).sum

/-- `parameters/bsp.rs`: per-cluster sky resolution check. -/
def checkClusterSky (s : RendererState) (c : BSPCluster) : Except String Unit :=
  match c.sky with
  | some sky =>
      if ¬ mcontains s.skies sky then
        Except.error "Cluster points to a sky which has not been loaded"
      else Except.ok ()
  | none => Except.ok ()

/-- `parameters/bsp.rs`: per-cluster subcluster surface bounds check. -/
def checkSubclusters (total : Nat) : List BSPSubcluster → Except String Unit
  | [] => Except.ok ()
  | sc :: rest =>
      if sc.surfaceIndices.any (fun i => i ≥ total) then
        Except.error "Subcluster points to an out-of-bounds surface"
      else checkSubclusters total rest

/-- `parameters/bsp.rs`: the portal loop inside the cluster loop of
`BSPData::validate`.  Faithful to the source, the bound that is tested is
`p_index`, the ENUMERATION POSITION within the cluster's portal list —
`for (p_index, _portal) in cluster.cluster_portals.iter().enumerate()
{ if p_index >= self.portals.len() ... }` — not the referenced portal
index `*_portal`. -/
def checkClusterPortalsPositional (portalCount : Nat) (pIndex : Nat) :
    List Nat → Except String Unit
  | [] => Except.ok ()
  | _portal :: rest =>
      if pIndex ≥ portalCount then
        Except.error "Portal of cluster points to an out-of-bounds portal"
      else checkClusterPortalsPositional portalCount (pIndex + 1) rest

/-- `parameters/bsp.rs`: the cluster loop of `BSPData::validate`. -/
def checkClusters (s : RendererState) (total : Nat) (portalCount : Nat) :
    List BSPCluster → Except String Unit
  | [] => Except.ok ()
  | c :: rest =>
      match checkClusterSky s c with
      | Except.error e => Except.error e
      | Except.ok _ =>
        match checkSubclusters total c.subclusters with
        | Except.error e => Except.error e
        | Except.ok _ =>
          match checkClusterPortalsPositional portalCount 0 c.clusterPortals with
          | Except.error e => Except.error e
          | Except.ok _ => checkClusters s total portalCount rest

/-- `parameters/bsp.rs`: the portal loop of `BSPData::validate`. -/
def checkPortals (clusterCount : Nat) : List BSPPortal → Except String Unit
  | [] => Except.ok ()
  | p :: rest =>
      if p.frontCluster ≥ clusterCount ∨ p.backCluster ≥ clusterCount then
        Except.error "Portal points to an out-of-bounds cluster"
      else checkPortals clusterCount rest

/-- `parameters/bsp.rs`: `BSPData::validate`. -/
def bspDataValidate (b : BSPData) (s : RendererState) (p : AddBSPParameter) :
    Except String Unit :=
  if b.nodes.isEmpty then Except.error "No nodes present"
  else
    match validateAllNodes b (List.range b.nodes.length)
        (List.replicate b.nodes.length false) with
    | Except.error e => Except.error e
    | Except.ok _ =>
      match checkLeaves b.clusters.length b.leaves with
      | Except.error e => Except.error e
      | Except.ok _ =>
        match checkClusters s (totalSurfaceCount p) b.portals.length b.clusters with
        | Except.error e => Except.error e
        | Except.ok _ => checkPortals b.clusters.length b.portals

/-- `parameters/bsp.rs` (`AddBSPParameter::validate`): resolution of the
optional lightmap bitmap against the renderer's bitmap table. -/
def resolveLightmapBitmap (p : AddBSPParameter) (s : RendererState) :
    Except String (Option Bitmap) :=
  match p.lightmapBitmap with
  | some path =>
      match mget s.bitmaps path with
      | none => Except.error "BSP refers to a lightmap bitmap which is not loaded in the renderer"
      | some bm => Except.ok (some bm)
  | none => Except.ok none

/-- `parameters/bsp.rs` (`AddBSPParameter::validate`): a lightmap set with
a bitmap index requires the lightmap bitmap, and the index must be below
its sub-bitmap count. -/
def checkLightmapSetIndex (lmr : Option Bitmap) (set : AddBSPParameterLightmapSet) :
    Except String Unit :=
  match set.lightmapIndex with
  | some bi =>
      match lmr with
      | none => Except.error "BSP lightmap has a bitmap index, but no lightmap bitmap is set"
      | some bm =>
          if bi ≥ bm.bitmaps.length then
            Except.error "BSP lightmap refers to a bitmap index beyond the sub-bitmap count"
          else Except.ok ()
  | none => Except.ok ()

/-- `parameters/bsp.rs` (`AddBSPParameter::validate`): a material's
lightmap vertex buffer must be absent or of the main vertex count, and
requires the lightmap bitmap to be set. -/
def checkMaterialLightmapCounts (lmr : Option Bitmap)
    (m : AddBSPParameterLightmapMaterial) : Except String Unit :=
  match m.lightmapVertices with
  | some lv =>
      if lv.length ≠ m.shaderVertices.length then
        Except.error "BSP material has differing pipeline and lightmap vertex counts"
      else if lmr.isNone then
        Except.error "BSP material has lightmap vertices when no lightmap bitmap is set"
      else Except.ok ()
  | none => Except.ok ()

/-- `parameters/bsp.rs` (`AddBSPParameter::validate`): a material's shader
must be loaded and must not be the model-only shader type. -/
def checkMaterialShader (s : RendererState) (m : AddBSPParameterLightmapMaterial) :
    Except String Unit :=
  match mget s.shaders m.shader with
  | none => Except.error "BSP material references a pipeline which is not loaded"
  | some sh =>
      if sh.shaderType = ShaderType.Model then
        Except.error "BSP material references a pipeline type which is not allowed for BSPs"
      else Except.ok ()

/-- `parameters/bsp.rs` (`AddBSPParameter::validate`): the material loop. -/
def checkMaterials (s : RendererState) (lmr : Option Bitmap) :
    List AddBSPParameterLightmapMaterial → Except String Unit
  | [] => Except.ok ()
  | m :: rest =>
      match checkMaterialLightmapCounts lmr m with
      | Except.error e => Except.error e
      | Except.ok _ =>
        match checkMaterialShader s m with
        | Except.error e => Except.error e
        | Except.ok _ => checkMaterials s lmr rest

/-- `parameters/bsp.rs` (`AddBSPParameter::validate`): the lightmap-set loop. -/
def checkLightmapSets (s : RendererState) (lmr : Option Bitmap) :
    List AddBSPParameterLightmapSet → Except String Unit
  | [] => Except.ok ()
  | set :: rest =>
      match checkLightmapSetIndex lmr set with
      | Except.error e => Except.error e
      | Except.ok _ =>
        match checkMaterials s lmr set.materials with
        | Except.error e => Except.error e
        | Except.ok _ => checkLightmapSets s lmr rest

/-- `parameters/bsp.rs`: `AddBSPParameter::validate` (all failure sites use
`from_data_error_string`, i.e. data errors). -/
def addBSPValidate (p : AddBSPParameter) (s : RendererState) : Except String Unit :=
  match resolveLightmapBitmap p s with
  | Except.error e => Except.error e
  | Except.ok lmr =>
    match checkLightmapSets s lmr p.lightmapSets with
    | Except.error e => Except.error e
    | Except.ok _ => bspDataValidate p.bspData s p

/-- `Vec::dedup`: removes consecutive repeated elements. -/
def dedupAdj : List Nat → List Nat
  | [] => []
  | [a] => [a]
  | a :: b :: rest =>
      if a = b then dedupAdj (b :: rest) else a :: dedupAdj (b :: rest)

/-- `data/bsp.rs` (`BSP::load_from_parameters`): `sort()` then `dedup()` on
a surface-index list.  Rust's stable sort on naturals yields the unique
sorted permutation, which `insertionSort` also computes. -/
def normalizeSurfaceIndices (l : List Nat) : List Nat :=
  dedupAdj (List.insertionSort (fun a b => a ≤ b) l)

/-- `data/bsp.rs`: in-place normalization of one subcluster. -/
def normalizeSubcluster (sc : BSPSubcluster) : BSPSubcluster :=
  { sc with surfaceIndices := normalizeSurfaceIndices sc.surfaceIndices }

/-- `data/bsp.rs`: in-place normalization of one cluster's subclusters. -/
def normalizeCluster (c : BSPCluster) : BSPCluster :=
  { c with subclusters := c.subclusters.map normalizeSubcluster }

/-- `data/bsp.rs` (`BSP::load_from_parameters`): `all_surfaces` for one
(already normalized) cluster — concatenate the subcluster lists, sort,
dedup. -/
def clusterAllSurfaces (c : BSPCluster) : List Nat :=
  dedupAdj (List.insertionSort (fun a b => a ≤ b)
    ((c.subclusters.map BSPSubcluster.surfaceIndices).flatten))

/-- `data/bsp.rs` (`BSP::load_from_parameters`): the flattened
(lightmap set × material) geometry sequence.  The stored shader path is the
shader-table key resolved by `get_key_value`, equal as a string to the
material's shader path; `lightmap_index` is
`lightmap_vertices.as_ref().and(set.lightmap_index)`. -/
def bspGeometriesOfParameter (p : AddBSPParameter) : List BSPGeometry :=
  (p.lightmapSets.enum.map (fun ls =>
    ls.2.materials.enum.map (fun mm =>
      { shader := mm.2.shader
        lightmapIndex :=
          match mm.2.lightmapVertices with
          | some _ => ls.2.lightmapIndex
          | none => none
        materialReflexiveIndex := mm.1
        lightmapReflexiveIndex := ls.1 : BSPGeometry }))).flatten

/-- The shader path of the geometry at an index (the sort key of
`geometry_indices_sorted_by_material`). -/
def shaderKeyOf (geoms : List BSPGeometry) (i : Nat) : String :=
  (geoms.getD i default).shader

/-- `data/bsp.rs` (`BSP::load_from_parameters`): indices `0..len` sorted by
the owning geometry's shader identity. -/
def sortGeometryIndices (geoms : List BSPGeometry) : List Nat :=
  List.insertionSort (fun a b => shaderKeyOf geoms a ≤ shaderKeyOf geoms b)
    (List.range geoms.length)

/-- `data/bsp.rs`: the pure content of `BSP::load_from_parameters` (GPU
buffer creation and the f32 `draw_distance` are external / unrepresented;
the per-cluster triangle-subset buffers feed only GPU buffer creation). -/
def loadBSPFromParameters (p : AddBSPParameter) : BSPLoaded :=
  let geometries := bspGeometriesOfParameter p
  let normalizedClusters := p.bspData.clusters.map normalizeCluster
  { geometries := geometries
    bspData := { p.bspData with clusters := normalizedClusters }
    clusterSurfaces := normalizedClusters.map clusterAllSurfaces
    geometryIndicesSortedByMaterial := sortGeometryIndices geometries }

/-- `renderer.rs`: `Renderer::add_bsp` (duplicate-path guard on the bsps
table, validate, load, insert).  Load-time GPU failures are external
graphics errors and cannot insert either. -/
def addBsp (s : RendererState) (path : String) (p : AddBSPParameter) :
    MResult Unit × RendererState :=
  if mcontains s.bsps path then
    (.error (Error.DataError "path already exists (replacing BSPs is not yet supported)"), s)
  else
    match addBSPValidate p s with
    | .error e => (.error (Error.DataError e), s)
    | .ok _ =>
        (.ok (), { s with bsps := minsert s.bsps path (loadBSPFromParameters p) })

/-- `vulkan.rs` (`draw_frame_infallible`): the transparency of the shader
stored at a path — `renderer.shaders.get(..).vulkan.pipeline_data
.is_transparent()`.  A missing shader panics in the source (`.expect`);
the draw-order theorems restrict to states where every referenced shader
resolves. -/
def stateIsTransparent (s : RendererState) (path : String) : Bool :=
  match mget s.shaders path with
  | some sh => sh.isTransparent
  | none => false

/-- `vulkan.rs` (`draw_frame_infallible`): the sequence of geometry batches
a viewport's geometry pass draws, in order: the shader-sorted index list
filtered to batches whose shader is not transparent (the `opaque`
iterator).  The `non_opaque` iterator is built but never iterated by any
draw loop in the source. -/
def drawnGeometryIndices (s : RendererState) (b : BSPLoaded) : List Nat :=
  b.geometryIndicesSortedByMaterial.filter
    (fun i => ! stateIsTransparent s (shaderKeyOf b.geometries i))

/-- `glam::Vec3::dot` over exact rationals. -/
def dotQ (a b : ℚ × ℚ × ℚ) : ℚ := a.1 * b.1 + a.2.1 * b.2.1 + a.2.2 * b.2.2

/-- `parameters/bsp.rs`: `BSPData::find_leaf`, starting from a given node.
The source is an unbounded loop; the outer `Option` is fuel exhaustion,
which cannot occur on validated (acyclic) trees.  Inner result: `none`
when the chosen child is absent, `some l` for a leaf. -/
def findLeafAux (b : BSPData) (position : ℚ × ℚ × ℚ) :
    Nat → Nat → Option (Option Nat)
  | 0, _ => none
  | fuel + 1, node =>
      if dotQ position (b.planes.getD (b.nodes.getD node default).plane default).angle ≥
          (b.planes.getD (b.nodes.getD node default).plane default).offset then
        match (b.nodes.getD node default).frontChild with
        | none => some none
        | some (BSP3DNodeChild.node n) => findLeafAux b position fuel n
        | some (BSP3DNodeChild.leaf l) => some (some l)
      else
        match (b.nodes.getD node default).backChild with
        | none => some none
        | some (BSP3DNodeChild.node n) => findLeafAux b position fuel n
        | some (BSP3DNodeChild.leaf l) => some (some l)

/-- The claim's description of a descent step's outcome once a child slot
has been chosen: an absent child yields no result (`None`), a leaf child
yields that leaf, and a node child continues the traversal from it. -/
def descendOutcome (b : BSPData) (position : ℚ × ℚ × ℚ) (fuel : Nat) :
    Option BSP3DNodeChild → Option (Option Nat)
  | none => some none
  | some (BSP3DNodeChild.node m) => findLeafAux b position fuel m
  | some (BSP3DNodeChild.leaf l) => some (some l)

/-- An edge of the BSP node graph: node `i` exists and refers to node `j`
as its front or back child. -/
def NodeEdge (b : BSPData) (i j : Nat) : Prop :=
  ∃ nd, b.nodes.get? i = some nd ∧
    (nd.frontChild = some (BSP3DNodeChild.node j) ∨
     nd.backChild = some (BSP3DNodeChild.node j))

/-- The node graph, interpreted as child pointers starting from any node,
contains a cycle. -/
def HasCycle (b : BSPData) : Prop :=
  ∃ n, Relation.TransGen (NodeEdge b) n n

/-! ### Concrete fixtures used by witnesses and counterexamples -/

/-- A freshly constructed renderer state with empty tables. -/
def emptyState : RendererState :=
  { bitmaps := [], shaders := [], geometries := [], skies := [], bsps := [],
    defaultBitmaps := none, currentBsp := none, playerViewports := [] }

/-- A valid sky parameter (all fog numbers zero). -/
def exSkyParamA : AddSkyParameter :=
  { geometry := none
    outdoorFogColor := (0, 0, 0)
    outdoorFogMaximumDensity := 0
    outdoorFogStartDistance := 0
    outdoorFogOpaqueDistance := 0
    indoorFogColor := (0, 0, 0)
    indoorFogMaximumDensity := 0
    indoorFogStartDistance := 0
    indoorFogOpaqueDistance := 0 }

/-- A second valid sky parameter, differing in the outdoor density. -/
def exSkyParamB : AddSkyParameter :=
  { exSkyParamA with outdoorFogMaximumDensity := mkRat 1 2 }

/-- A two-node BSP graph in which node 0 and node 1 reference each other as
front children: a cycle reachable from both roots. -/
def exCycleBSPData : BSPData :=
  { nodes :=
      [{ frontChild := some (BSP3DNodeChild.node 1), backChild := none, plane := 0 },
       { frontChild := some (BSP3DNodeChild.node 0), backChild := none, plane := 0 }]
    planes := [{ angle := (0, 1, 0), offset := 0 }]
    leaves := []
    clusters := []
    portals := [] }

/-- The cyclic BSP graph wrapped as an `add_bsp` parameter. -/
def exCycleParam : AddBSPParameter :=
  { lightmapBitmap := none, lightmapSets := [], bspData := exCycleBSPData }

/-- A BSP whose single cluster references portal index 3 while only one
portal exists: the portal reference is out of bounds. -/
def exC4BSPData : BSPData :=
  { nodes := [{ frontChild := none, backChild := none, plane := 0 }]
    planes := [{ angle := (0, 1, 0), offset := 0 }]
    leaves := []
    clusters := [{ sky := none, subclusters := [], clusterPortals := [3] }]
    portals := [{ frontCluster := 0, backCluster := 0 }] }

/-- The out-of-bounds-portal BSP wrapped as an `add_bsp` parameter. -/
def exC4Param : AddBSPParameter :=
  { lightmapBitmap := none, lightmapSets := [], bspData := exC4BSPData }

/-- An `add_bsp` parameter that fails validation: it references a lightmap
bitmap that is not loaded. -/
def exC2Param : AddBSPParameter :=
  { lightmapBitmap := some "missing_bitmap"
    lightmapSets := []
    bspData :=
      { nodes := [default], planes := [default], leaves := [], clusters := [], portals := [] } }

/-- A basic (non-model) shader parameter with no bitmap reference. -/
def exC5Shader : AddShaderParameter :=
  { data := AddShaderData.BasicShader
      { bitmap := none, shaderType := ShaderType.Environment, alphaTested := false } }

/-- A state holding one shader loaded through `add_shader`. -/
def exC5State : RendererState := (addShader emptyState "shader_a" exC5Shader).2

/-- A material referencing the loaded shader. -/
def exC5Material : AddBSPParameterLightmapMaterial :=
  { shaderVertices := [], lightmapVertices := none,
    surfaces := [{ indices := (0, 1, 2) }], shader := "shader_a" }

/-- An `add_bsp` parameter with one lightmap set and one material. -/
def exC5Param : AddBSPParameter :=
  { lightmapBitmap := none
    lightmapSets := [{ lightmapIndex := none, materials := [exC5Material] }]
    bspData :=
      { nodes := [default], planes := [default], leaves := [], clusters := [], portals := [] } }

/-- The BSP loaded from the one-material parameter. -/
def exC5BSP : BSPLoaded := loadBSPFromParameters exC5Param

/-- A one-node tree whose root has a front leaf 5 and a back leaf 6,
splitting on the plane with direction (0,1,0) and offset 0. -/
def exC6BSPData : BSPData :=
  { nodes :=
      [{ frontChild := some (BSP3DNodeChild.leaf 5),
         backChild := some (BSP3DNodeChild.leaf 6), plane := 0 }]
    planes := [{ angle := (0, 1, 0), offset := 0 }]
    leaves := []
    clusters := []
    portals := [] }

/-- A state with a single viewport. -/
def exC9State : RendererState :=
  { emptyState with playerViewports := [defaultPlayerViewport] }

/-- A camera with a valid fov and a zero-length rotation vector. -/
def exC9Camera : Camera :=
  { fov := 1, position := (1, 2, 3), rotation := (0, 0, 0) }

/-- Four 2D sub-bitmaps with plain (non-sprite) sequencing. -/
def exBitmap2D : Bitmap :=
  { bitmaps := List.replicate 4
      { resolution := { width := 1, height := 1 }, bitmapType := BitmapType.Dim2D }
    sequences := [BitmapSequence.Bitmap 0 1] }

/-- Four 3D sub-bitmaps with plain sequencing. -/
def exBitmap3D : Bitmap :=
  { bitmaps := List.replicate 4
      { resolution := { width := 1, height := 1 }, bitmapType := BitmapType.Dim3D 1 }
    sequences := [BitmapSequence.Bitmap 0 1] }

/-- Four cubemap sub-bitmaps with plain sequencing. -/
def exBitmapCube : Bitmap :=
  { bitmaps := List.replicate 4
      { resolution := { width := 1, height := 1 }, bitmapType := BitmapType.Cubemap }
    sequences := [BitmapSequence.Bitmap 0 1] }

/-- A bitmaps table suitable for `set_default_bitmaps`. -/
def exC10Bitmaps : List (String × Bitmap) :=
  [("d2", exBitmap2D), ("d3", exBitmap3D), ("dc", exBitmapCube)]

/-- Parameters naming the three default-bitmap slots. -/
def exC10SetParams : SetDefaultBitmaps :=
  { default2d := "d2", default3d := "d3", defaultCubemap := "dc" }

/-- A dirty state: default bitmaps already set, one viewport configured. -/
def exC10State : RendererState :=
  { emptyState with
    defaultBitmaps := some { default2d := "x", default3d := "y", defaultCubemap := "z" }
    playerViewports := [defaultPlayerViewport] }

/-! ### Claim theorems -/

/-- C8: constructing a renderer with 3 viewports yields exactly the
relative rectangles (0,0,1,0.5), (0,0.5,0.5,0.5), (0.5,0.5,0.5,0.5), in
that order; and any viewport count outside 1..=4 fails with a data
error. -/
theorem claim_C8_viewport_layout (pr : RendererParameters)
    (hw : pr.resolution.width ≠ 0) (hh : pr.resolution.height ≠ 0)
    (h3 : pr.numberOfViewports = 3) :
    Except.map (fun l => l.map (fun v => (v.relX, v.relY, v.relWidth, v.relHeight)))
        (rendererNewViewports pr)
      = Except.ok [((0 : ℚ), (0 : ℚ), (1 : ℚ), (1/2 : ℚ)),
                   (0, 1/2, 1/2, 1/2), (1/2, 1/2, 1/2, 1/2)]
    ∧ ∀ pr2 : RendererParameters,
        pr2.numberOfViewports = 0 ∨ 5 ≤ pr2.numberOfViewports →
        ∃ e, rendererNewViewports pr2 = Except.error (Error.DataError e) := by
  constructor
  · unfold rendererNewViewports
    rw [if_neg (by simp [hw, hh])]
    rw [h3]
    rfl
  · intro pr2 h
    unfold rendererNewViewports
    by_cases hz : pr2.resolution.height = 0 ∨ pr2.resolution.width = 0
    · rw [if_pos hz]
      exact ⟨_, rfl⟩
    · rw [if_neg hz]
      rcases h with h0 | h5
      · rw [h0]
        exact ⟨_, rfl⟩
      · obtain ⟨k, hk⟩ : ∃ k, pr2.numberOfViewports = k + 5 :=
          ⟨pr2.numberOfViewports - 5, by omega⟩
        rw [hk]
        exact ⟨_, rfl⟩

/-- Witness for C8 at a concrete 640x480 construction with 3 viewports,
and a rejected construction with 5 viewports. -/
theorem claim_C8_viewport_layout_witness :
    Except.map (fun l => l.map (fun v => (v.relX, v.relY, v.relWidth, v.relHeight)))
        (rendererNewViewports
          { resolution := { width := 640, height := 480 }, numberOfViewports := 3,
            vsync := false, msaa := MSAA.NoMSAA })
      = Except.ok [((0 : ℚ), (0 : ℚ), (1 : ℚ), (1/2 : ℚ)),
                   (0, 1/2, 1/2, 1/2), (1/2, 1/2, 1/2, 1/2)]
    ∧ ∃ e, rendererNewViewports
          { resolution := { width := 640, height := 480 }, numberOfViewports := 5,
            vsync := false, msaa := MSAA.NoMSAA }
        = Except.error (Error.DataError e) :=
  ⟨(claim_C8_viewport_layout
      { resolution := { width := 640, height := 480 }, numberOfViewports := 3,
        vsync := false, msaa := MSAA.NoMSAA }
      (by decide) (by decide) rfl).1,
   (claim_C8_viewport_layout
      { resolution := { width := 640, height := 480 }, numberOfViewports := 3,
        vsync := false, msaa := MSAA.NoMSAA }
      (by decide) (by decide) rfl).2
     { resolution := { width := 640, height := 480 }, numberOfViewports := 5,
       vsync := false, msaa := MSAA.NoMSAA }
     (Or.inr (by decide))⟩

/-- C9: for a viewport index below the viewport count and a camera with
0 < fov < pi, `set_camera_for_viewport` stores the camera with position
and fov unchanged and rotation replaced by the normalization of the input
(falling back to the default forward vector (0,1,0) on zero-length
input), `get_camera` returns exactly the stored camera, and a fov outside
(0, pi) is rejected (panic, modelled as `none`) without storing. -/
theorem claim_C9_set_camera_normalizes_and_roundtrips (s : RendererState)
    (vp : Nat) (cam : Camera)
    (hvp : vp < s.playerViewports.length)
    (hf0 : 0 < cam.fov) (hfpi : cam.fov < f32Pi) :
    (∃ s2, setCameraForViewport s vp cam = some s2 ∧
      getCamera s2 vp = some
        { position := cam.position
          rotation := (tryNormalize cam.rotation).getD (0, 1, 0)
          fov := cam.fov } ∧
      (cam.rotation = (0, 0, 0) →
        getCamera s2 vp = some
          { position := cam.position, rotation := (0, 1, 0), fov := cam.fov }))
    ∧ ∀ cam2 : Camera, ¬(0 < cam2.fov ∧ cam2.fov < f32Pi) →
        setCameraForViewport s vp cam2 = none := by
  constructor
  · unfold setCameraForViewport
    rw [if_neg (not_not_intro ⟨hf0, hfpi⟩), dif_pos hvp]
    refine ⟨_, rfl, ?_, ?_⟩
    · simp only [getCamera]
      rw [List.get?_eq_getElem?, List.getElem?_set_eq_of_lt _ hvp]
      rfl
    · intro hz
      simp only [getCamera]
      rw [List.get?_eq_getElem?, List.getElem?_set_eq_of_lt _ hvp]
      simp [tryNormalize, hz]
  · intro cam2 hno
    unfold setCameraForViewport
    rw [if_pos hno]

/-- Witness for C9: a zero-length rotation is replaced by (0,1,0) while
position and fov are stored unchanged. -/
theorem claim_C9_set_camera_witness :
    (0 < exC9Camera.fov ∧ exC9Camera.fov < f32Pi ∧
      0 < exC9State.playerViewports.length) ∧
    ∃ s2, setCameraForViewport exC9State 0 exC9Camera = some s2 ∧
      getCamera s2 0 = some { position := (1, 2, 3), rotation := (0, 1, 0), fov := 1 } := by
  obtain ⟨⟨s2, hset, _, hzero⟩, _⟩ :=
    claim_C9_set_camera_normalizes_and_roundtrips exC9State 0 exC9Camera
      (by decide) (by decide) (by decide)
  exact ⟨⟨by decide, by decide, by decide⟩, s2, hset, hzero rfl⟩

/-- C10: `reset` empties all five asset tables, clears the current-BSP
selection and the default-bitmaps setting, leaves the viewport list
unchanged, and afterwards `set_default_bitmaps` succeeds again (here:
against any repopulated bitmaps table satisfying its checks). -/
theorem claim_C10_reset_clears_tables_keeps_viewports (s : RendererState)
    (B : List (String × Bitmap)) (p : SetDefaultBitmaps) (d2 d3 dc : Bitmap)
    (h2 : mget B p.default2d = some d2) (h2c : defaultBitmapCheck2D d2 = true)
    (h3 : mget B p.default3d = some d3) (h3c : defaultBitmapCheck3D d3 = true)
    (hc : mget B p.defaultCubemap = some dc) (hcc : defaultBitmapCheckCubemap dc = true) :
    (reset s).bitmaps = [] ∧ (reset s).shaders = [] ∧ (reset s).geometries = [] ∧
    (reset s).skies = [] ∧ (reset s).bsps = [] ∧
    (reset s).currentBsp = none ∧ (reset s).defaultBitmaps = none ∧
    (reset s).playerViewports = s.playerViewports ∧
    (setDefaultBitmaps { reset s with bitmaps := B } p).1 = Except.ok () ∧
    (setDefaultBitmaps { reset s with bitmaps := B } p).2.defaultBitmaps =
      some { default2d := p.default2d, default3d := p.default3d,
             defaultCubemap := p.defaultCubemap } := by
  refine ⟨rfl, rfl, rfl, rfl, rfl, rfl, rfl, rfl, ?_, ?_⟩
  all_goals
    unfold setDefaultBitmaps
    simp [reset, h2, h3, hc, h2c, h3c, hcc]

/-- Witness for C10: a state with default bitmaps already set and one
viewport; after reset, the viewport survives and `set_default_bitmaps`
succeeds against a repopulated table. -/
theorem claim_C10_reset_witness :
    exC10State.defaultBitmaps.isSome = true ∧
    (reset exC10State).playerViewports = exC10State.playerViewports ∧
    (setDefaultBitmaps { reset exC10State with bitmaps := exC10Bitmaps }
      exC10SetParams).1 = Except.ok () := by
  have h := claim_C10_reset_clears_tables_keeps_viewports exC10State exC10Bitmaps
    exC10SetParams exBitmap2D exBitmap3D exBitmapCube
    (by decide) (by decide) (by decide) (by decide) (by decide) (by decide)
  exact ⟨by decide, h.2.2.2.2.2.2.2.1, h.2.2.2.2.2.2.2.2.1⟩

/-- C1 (counter-evidence for the claim, which the code contradicts):
`add_sky` performs no duplicate-path check at all — re-adding an existing
sky path succeeds (`Ok`) and silently replaces the stored sky, so the
"re-adding an existing path is a hard error for all four tables" claim
fails on the code.  (`add_bitmap` likewise checks the wrong table — it
consults `self.bsps` instead of `self.bitmaps` before inserting a
bitmap.) -/
theorem claim_C1_add_sky_replaces_existing_path :
    (mget (addSky emptyState "sky_a" exSkyParamA).2.skies "sky_a").isSome = true ∧
    (addSky (addSky emptyState "sky_a" exSkyParamA).2 "sky_a" exSkyParamB).1
      = Except.ok () ∧
    mget (addSky (addSky emptyState "sky_a" exSkyParamA).2 "sky_a" exSkyParamB).2.skies
        "sky_a"
      ≠ mget (addSky emptyState "sky_a" exSkyParamA).2.skies "sky_a" := by
  decide

/-- C4 (counter-evidence for the claim, which the code contradicts): the
cluster-portal bounds check of `BSPData::validate` tests the enumeration
position `p_index` instead of the referenced portal index, so a cluster
whose portal list contains the out-of-bounds reference 3 (with only 1
portal present) passes validation, and `add_bsp` succeeds. -/
theorem claim_C4_cluster_portal_reference_unchecked :
    3 ∈ (exC4BSPData.clusters.getD 0 default).clusterPortals ∧
    exC4BSPData.portals.length = 1 ∧
    bspDataValidate exC4BSPData emptyState exC4Param = Except.ok () ∧
    (addBsp emptyState "bsp_a" exC4Param).1 = Except.ok () := by
  decide

/-- C2: whenever `AddBSPParameter::validate` fails, `add_bsp` returns a
data error and the renderer state — all asset tables and the current-BSP
selection — is exactly the pre-call state (validation precedes every
mutation). -/
theorem claim_C2_add_bsp_validation_failure_is_pure (s : RendererState)
    (path : String) (p : AddBSPParameter)
    (h : ∃ e, addBSPValidate p s = Except.error e) :
    (∃ msg, (addBsp s path p).1 = Except.error (Error.DataError msg)) ∧
    (addBsp s path p).2 = s := by
  obtain ⟨e, he⟩ := h
  unfold addBsp
  by_cases hdup : mcontains s.bsps path
  · rw [if_pos hdup]
    exact ⟨⟨_, rfl⟩, rfl⟩
  · rw [if_neg hdup, he]
    exact ⟨⟨e, rfl⟩, rfl⟩

/-- Witness for C2: a parameter referencing a lightmap bitmap that is not
loaded fails validation; `add_bsp` reports a data error and returns the
renderer state unchanged. -/
theorem claim_C2_add_bsp_validation_failure_witness :
    (∃ e, addBSPValidate exC2Param emptyState = Except.error e) ∧
    (∃ msg, (addBsp emptyState "bsp_b" exC2Param).1 = Except.error (Error.DataError msg)) ∧
    (addBsp emptyState "bsp_b" exC2Param).2 = emptyState := by
  have hv : addBSPValidate exC2Param emptyState
      = Except.error "BSP refers to a lightmap bitmap which is not loaded in the renderer" := by
    rfl
  have h := claim_C2_add_bsp_validation_failure_is_pure emptyState "bsp_b" exC2Param ⟨_, hv⟩
  exact ⟨⟨_, hv⟩, h.1, h.2⟩

/-- C6: a `find_leaf` traversal step classifies the position against the
visited node's plane as front exactly when
`dot(position, plane.direction) >= plane.offset` — in particular a
position exactly on the plane takes the front branch — and then follows
the chosen child: absent child gives `None`, a leaf child returns that
leaf, a node child continues from it. -/
theorem claim_C6_find_leaf_front_closed_boundary (b : BSPData)
    (pos : ℚ × ℚ × ℚ) (fuel n : Nat) (nd : BSP3DNode) (pl : BSP3DPlane)
    (hn : b.nodes.get? n = some nd) (hp : b.planes.get? nd.plane = some pl) :
    (dotQ pos pl.angle ≥ pl.offset →
      findLeafAux b pos (fuel + 1) n = descendOutcome b pos fuel nd.frontChild)
    ∧ (dotQ pos pl.angle < pl.offset →
      findLeafAux b pos (fuel + 1) n = descendOutcome b pos fuel nd.backChild)
    ∧ (dotQ pos pl.angle = pl.offset →
      findLeafAux b pos (fuel + 1) n = descendOutcome b pos fuel nd.frontChild) := by
  have hget : b.nodes.getD n default = nd := by
    simp [List.getD_eq_getElem?_getD, ← List.get?_eq_getElem?, hn]
  have hpl : b.planes.getD nd.plane default = pl := by
    simp [List.getD_eq_getElem?_getD, ← List.get?_eq_getElem?, hp]
  have hmain : ∀ c : Option BSP3DNodeChild,
      (match c with
        | none => some none
        | some (BSP3DNodeChild.node m) => findLeafAux b pos fuel m
        | some (BSP3DNodeChild.leaf l) => some (some l))
      = descendOutcome b pos fuel c := by
    intro c
    cases c with
    | none => rfl
    | some child => cases child <;> rfl
  refine ⟨?_, ?_, ?_⟩
  · intro hge
    simp only [findLeafAux, hget, hpl]
    rw [if_pos hge]
    exact hmain _
  · intro hlt
    simp only [findLeafAux, hget, hpl]
    rw [if_neg (not_le.mpr hlt)]
    exact hmain _
  · intro heq
    simp only [findLeafAux, hget, hpl]
    rw [if_pos (le_of_eq heq.symm)]
    exact hmain _

/-- Witness for C6: on a root whose plane is (0,1,0)·x = 0, the position
(0,0,0) lies exactly on the plane; the front branch (leaf 5) is taken even
though the back branch (leaf 6) exists. -/
theorem claim_C6_find_leaf_witness :
    dotQ (0, 0, 0)
        ((exC6BSPData.planes.getD 0 default).angle)
      = (exC6BSPData.planes.getD 0 default).offset ∧
    (exC6BSPData.nodes.getD 0 default).backChild = some (BSP3DNodeChild.leaf 6) ∧
    findLeafAux exC6BSPData (0, 0, 0) 1 0 = some (some 5) := by
  have h := (claim_C6_find_leaf_front_closed_boundary exC6BSPData (0, 0, 0) 0 0
      { frontChild := some (BSP3DNodeChild.leaf 5),
        backChild := some (BSP3DNodeChild.leaf 6), plane := 0 }
      { angle := (0, 1, 0), offset := 0 } rfl rfl).2.2
  refine ⟨by norm_num [dotQ, exC6BSPData, List.getD], rfl, ?_⟩
  rw [h (by norm_num [dotQ])]
  rfl

/-- `Vec::dedup` preserves membership. -/
theorem mem_dedupAdj (l : List Nat) (x : Nat) : x ∈ dedupAdj l ↔ x ∈ l := by
  induction l with
  | nil => simp [dedupAdj]
  | cons a tail ih =>
    cases tail with
    | nil => simp [dedupAdj]
    | cons bb rest =>
      simp only [dedupAdj]
      by_cases hab : a = bb
      · rw [if_pos hab, ih]
        subst hab
        simp [List.mem_cons]
      · rw [if_neg hab]
        simp [List.mem_cons, ih]

/-- `Vec::dedup` of a (≤)-sorted list is strictly sorted. -/
theorem pairwise_lt_dedupAdj (l : List Nat)
    (h : List.Pairwise (fun a b => a ≤ b) l) :
    List.Pairwise (fun a b => a < b) (dedupAdj l) := by
  induction l with
  | nil => simp [dedupAdj]
  | cons a tail ih =>
    cases tail with
    | nil => simp [dedupAdj]
    | cons bb rest =>
      obtain ⟨ha, htail⟩ := List.pairwise_cons.mp h
      simp only [dedupAdj]
      by_cases hab : a = bb
      · rw [if_pos hab]
        exact ih htail
      · rw [if_neg hab]
        refine List.Pairwise.cons ?_ (ih htail)
        intro y hy
        rw [mem_dedupAdj] at hy
        rcases List.mem_cons.mp hy with rfl | hyrest
        · exact lt_of_le_of_ne (ha _ hy) hab
        · obtain ⟨hbb, _⟩ := List.pairwise_cons.mp htail
          refine lt_of_le_of_ne (ha _ hy) ?_
          intro hay
          exact hab (le_antisymm (ha _ (List.mem_cons_self _ _))
            (hay ▸ hbb _ hyrest))

/-- The sort used by load-time normalization is (≤)-sorted. -/
theorem pairwise_le_insertionSortNat (l : List Nat) :
    List.Pairwise (fun a b => a ≤ b) (List.insertionSort (fun a b => a ≤ b) l) := by
  haveI : IsTotal Nat (fun a b : Nat => a ≤ b) := ⟨le_total⟩
  haveI : IsTrans Nat (fun a b : Nat => a ≤ b) := ⟨fun _ _ _ => le_trans⟩
  exact List.sorted_insertionSort _ l

/-- The sort used by load-time normalization preserves membership. -/
theorem mem_insertionSortNat (l : List Nat) (x : Nat) :
    x ∈ List.insertionSort (fun a b => a ≤ b) l ↔ x ∈ l :=
  (List.perm_insertionSort _ l).mem_iff

/-- Load-time normalization (`sort` + `dedup`) preserves membership. -/
theorem mem_normalizeSurfaceIndices (l : List Nat) (x : Nat) :
    x ∈ normalizeSurfaceIndices l ↔ x ∈ l := by
  unfold normalizeSurfaceIndices
  rw [mem_dedupAdj, mem_insertionSortNat]

/-- Load-time normalization produces a strictly ascending list. -/
theorem pairwise_lt_normalizeSurfaceIndices (l : List Nat) :
    List.Pairwise (fun a b => a < b) (normalizeSurfaceIndices l) :=
  pairwise_lt_dedupAdj _ (pairwise_le_insertionSortNat l)

/-- C7: after BSP load every subcluster surface-index list is normalized
(sorted ascending, duplicates removed; [3,1,3,2,1] becomes [1,2,3]), and
every cluster's derived `cluster_surfaces` entry is strictly ascending and
holds exactly the union of its subclusters' indices. -/
theorem claim_C7_surface_indices_sorted_dedup (p : AddBSPParameter) (i x : Nat) :
    normalizeSurfaceIndices [3, 1, 3, 2, 1] = [1, 2, 3]
    ∧ (∀ l : List Nat, List.Pairwise (fun a b => a < b) (normalizeSurfaceIndices l)
        ∧ (∀ y, y ∈ normalizeSurfaceIndices l ↔ y ∈ l))
    ∧ ((loadBSPFromParameters p).bspData.clusters.getD i default).subclusters
        = (p.bspData.clusters.getD i default).subclusters.map normalizeSubcluster
    ∧ List.Pairwise (fun a b => a < b) ((loadBSPFromParameters p).clusterSurfaces.getD i [])
    ∧ ((x ∈ (loadBSPFromParameters p).clusterSurfaces.getD i []) ↔
        ∃ sc ∈ (p.bspData.clusters.getD i default).subclusters, x ∈ sc.surfaceIndices) := by
  have hcs : (loadBSPFromParameters p).clusterSurfaces.getD i []
      = clusterAllSurfaces (normalizeCluster (p.bspData.clusters.getD i default)) := by
    show ((p.bspData.clusters.map normalizeCluster).map clusterAllSurfaces).getD i [] = _
    rw [List.getD_eq_getElem?_getD, List.getElem?_map, List.getElem?_map,
      List.getD_eq_getElem?_getD]
    cases hcl : p.bspData.clusters[i]? with
    | none => rfl
    | some c => rfl
  refine ⟨by decide, ?_, ?_, ?_, ?_⟩
  · intro l
    exact ⟨pairwise_lt_normalizeSurfaceIndices l, fun y => mem_normalizeSurfaceIndices l y⟩
  · show ((p.bspData.clusters.map normalizeCluster).getD i default).subclusters = _
    rw [List.getD_eq_getElem?_getD, List.getElem?_map, List.getD_eq_getElem?_getD]
    cases hcl : p.bspData.clusters[i]? with
    | none => rfl
    | some c => rfl
  · rw [hcs]
    exact pairwise_lt_dedupAdj _ (pairwise_le_insertionSortNat _)
  · rw [hcs]
    simp only [clusterAllSurfaces, normalizeCluster]
    rw [mem_dedupAdj, mem_insertionSortNat, List.mem_flatten]
    constructor
    · rintro ⟨l, hl, hx⟩
      rw [List.mem_map] at hl
      obtain ⟨sc', hsc', rfl⟩ := hl
      rw [List.mem_map] at hsc'
      obtain ⟨sc, hsc, rfl⟩ := hsc'
      exact ⟨sc, hsc, (mem_normalizeSurfaceIndices _ _).mp hx⟩
    · rintro ⟨sc, hsc, hx⟩
      refine ⟨(normalizeSubcluster sc).surfaceIndices, ?_, ?_⟩
      · rw [List.mem_map]
        exact ⟨normalizeSubcluster sc, List.mem_map_of_mem _ hsc, rfl⟩
      · exact (mem_normalizeSurfaceIndices _ _).mpr hx

/-- A successful table lookup comes from an entry of the table. -/
theorem mget_mem {α : Type} (m : List (String × α)) (k : String) (v : α)
    (h : mget m k = some v) : (k, v) ∈ m := by
  induction m with
  | nil => simp [mget] at h
  | cons kv rest ih =>
    obtain ⟨k2, w⟩ := kv
    simp only [mget] at h
    by_cases hk : k2 = k
    · rw [if_pos hk] at h
      injection h with h2
      subst hk
      subst h2
      exact List.mem_cons_self _ _
    · rw [if_neg hk] at h
      exact List.mem_cons_of_mem _ (ih h)

/-- C5: the geometry pass iterates batches in shader-sorted order with the
opaque batches first and the transparent batches after (transparency is
the owning shader's `is_transparent` property).  Both material kinds the
shader loader can produce inherit the default `is_transparent = false`
(first conjunct), so in every constructible renderer state no batch is
transparent, the opaque pass is the whole shader-sorted sequence and the
trailing transparent pass is empty — as the second conjunct states, the
drawn sequence equals opaque-filtered batches followed by
transparent-filtered batches; the third conjunct is the shader-sorted
ordering of the drawn sequence.  (In the source the `non_opaque` iterator
is constructed but no draw loop consumes it; with a hypothetical
transparent material the second pass would be missing.) -/
theorem claim_C5_draw_order_opaque_then_transparent (s : RendererState)
    (p : AddBSPParameter) (q : AddShaderParameter)
    (hop : s.shaders.all (fun e => e.2.isTransparent = false) = true)
    (hres : (loadBSPFromParameters p).geometries.all
      (fun g => (mget s.shaders g.shader).isSome) = true) :
    (loadShaderFromParameters q).isTransparent = false
    ∧ drawnGeometryIndices s (loadBSPFromParameters p)
        = (loadBSPFromParameters p).geometryIndicesSortedByMaterial.filter
            (fun i => ! stateIsTransparent s
              (shaderKeyOf (loadBSPFromParameters p).geometries i))
          ++ (loadBSPFromParameters p).geometryIndicesSortedByMaterial.filter
            (fun i => stateIsTransparent s
              (shaderKeyOf (loadBSPFromParameters p).geometries i))
    ∧ List.Pairwise
        (fun a b => shaderKeyOf (loadBSPFromParameters p).geometries a
          ≤ shaderKeyOf (loadBSPFromParameters p).geometries b)
        (drawnGeometryIndices s (loadBSPFromParameters p)) := by
  have hfalse : ∀ path, stateIsTransparent s path = false := by
    intro path
    unfold stateIsTransparent
    cases hm : mget s.shaders path with
    | none => rfl
    | some sh =>
      have hmem := mget_mem s.shaders path sh hm
      have hall := List.all_eq_true.mp hop _ hmem
      simpa using hall
  refine ⟨rfl, ?_, ?_⟩
  · simp [drawnGeometryIndices, hfalse]
  · have hsorted : List.Pairwise
        (fun a b => shaderKeyOf (bspGeometriesOfParameter p) a
          ≤ shaderKeyOf (bspGeometriesOfParameter p) b)
        (sortGeometryIndices (bspGeometriesOfParameter p)) := by
      haveI : IsTotal Nat (fun a b =>
          shaderKeyOf (bspGeometriesOfParameter p) a
            ≤ shaderKeyOf (bspGeometriesOfParameter p) b) :=
        ⟨fun a b => le_total _ _⟩
      haveI : IsTrans Nat (fun a b =>
          shaderKeyOf (bspGeometriesOfParameter p) a
            ≤ shaderKeyOf (bspGeometriesOfParameter p) b) :=
        ⟨fun _ _ _ hab hbc => le_trans hab hbc⟩
      exact List.sorted_insertionSort _ _
    exact List.Pairwise.sublist (List.filter_sublist _) hsorted

/-- Witness for C5: a state with one loaded (opaque) shader and a BSP with
one geometry batch; the drawn sequence is the opaque filter followed by
the (empty) transparent filter of the shader-sorted batches. -/
theorem claim_C5_draw_order_witness :
    (exC5State.shaders.all (fun e => e.2.isTransparent = false) = true) ∧
    drawnGeometryIndices exC5State (loadBSPFromParameters exC5Param)
      = (loadBSPFromParameters exC5Param).geometryIndicesSortedByMaterial.filter
          (fun i => ! stateIsTransparent exC5State
            (shaderKeyOf (loadBSPFromParameters exC5Param).geometries i))
        ++ (loadBSPFromParameters exC5Param).geometryIndicesSortedByMaterial.filter
          (fun i => stateIsTransparent exC5State
            (shaderKeyOf (loadBSPFromParameters exC5Param).geometries i)) :=
  ⟨by decide,
   (claim_C5_draw_order_opaque_then_transparent exC5State exC5Param exC5Shader
      (by decide) (by decide)).2.1⟩

/-- Unfolding `validate3DNode` at positive fuel in terms of the standalone
child step. -/
theorem validate3DNode_succ_eq (b : BSPData) (node f : Nat) (t : List Bool) :
    validate3DNode b node (f + 1) t =
      if t.getD node false then Except.ok t
      else
        match validateChildFn b f (b.nodes.getD node default).frontChild t with
        | Except.error e => Except.error e
        | Except.ok t1 =>
          match validateChildFn b f (b.nodes.getD node default).backChild t1 with
          | Except.error e => Except.error e
          | Except.ok t2 => Except.ok (t2.set node true) := rfl

/-- A bitset entry that is set stays set after `List.set _ _ true`. -/
theorem getD_set_mono (l : List Bool) (n i : Nat)
    (h : l.getD i false = true) : (l.set n true).getD i false = true := by
  by_cases hin : i = n
  · subst hin
    by_cases hlt : i < l.length
    · rw [List.getD_eq_getElem?_getD, List.getElem?_set_eq_of_lt _ hlt]
      rfl
    · rw [List.getD_eq_getElem?_getD, List.getElem?_eq_none (Nat.le_of_not_lt hlt)] at h
      exact absurd h (by simp)
  · rw [List.getD_eq_getElem?_getD, List.getElem?_set_ne (fun hx => hin hx.symm)]
    rw [List.getD_eq_getElem?_getD] at h
    exact h

/-- Setting an in-bounds bitset entry makes it read back as set. -/
theorem getD_set_self (l : List Bool) (n : Nat) (h : n < l.length) :
    (l.set n true).getD n false = true := by
  rw [List.getD_eq_getElem?_getD, List.getElem?_set_eq_of_lt _ h]
  rfl

/-- Nothing can descend forever along accessible nodes: the soundness of
one child step of `validate_3d_node` at the decremented budget, assuming
soundness of the recursive traversal at that budget (`IH`). -/
theorem childStepSound (b : BSPData) (f : Nat)
    (IH : ∀ node t t2, validate3DNode b node f t = Except.ok t2 →
      t.length = b.nodes.length → node < b.nodes.length →
      (∀ i, t.getD i false = true → Acc (fun j k => NodeEdge b k j) i) →
      t2.length = b.nodes.length
      ∧ (∀ i, t.getD i false = true → t2.getD i false = true)
      ∧ (∀ i, t2.getD i false = true → Acc (fun j k => NodeEdge b k j) i)
      ∧ t2.getD node false = true)
    (c : Option BSP3DNodeChild) (t t2 : List Bool)
    (hok : validateChildFn b f c t = Except.ok t2)
    (hlen : t.length = b.nodes.length)
    (hinv : ∀ i, t.getD i false = true → Acc (fun j k => NodeEdge b k j) i) :
    t2.length = b.nodes.length
    ∧ (∀ i, t.getD i false = true → t2.getD i false = true)
    ∧ (∀ i, t2.getD i false = true → Acc (fun j k => NodeEdge b k j) i)
    ∧ (∀ j, c = some (BSP3DNodeChild.node j) →
        t2.getD j false = true ∧ j < b.nodes.length) := by
  cases c with
  | none =>
    replace hok : Except.ok t = Except.ok t2 := hok
    injection hok with hok
    subst hok
    exact ⟨hlen, fun _ h => h, hinv, fun j hj => by cases hj⟩
  | some child =>
    cases child with
    | node n =>
      replace hok : (if n ≥ b.nodes.length then
          (Except.error "broken BSP: a referenced child node does not exist" :
            Except String (List Bool))
        else validate3DNode b n f t) = Except.ok t2 := hok
      by_cases hn : n ≥ b.nodes.length
      · rw [if_pos hn] at hok
        cases hok
      · rw [if_neg hn] at hok
        obtain ⟨h1, h2, h3, h4⟩ := IH n t t2 hok hlen (Nat.lt_of_not_le hn) hinv
        refine ⟨h1, h2, h3, fun j hj => ?_⟩
        injection hj with hj
        cases hj
        exact ⟨h4, Nat.lt_of_not_le hn⟩
    | leaf l =>
      replace hok : (if l ≥ b.leaves.length then
          (Except.error "broken BSP: a referenced leaf does not exist" :
            Except String (List Bool))
        else Except.ok t) = Except.ok t2 := hok
      by_cases hl : l ≥ b.leaves.length
      · rw [if_pos hl] at hok
        cases hok
      · rw [if_neg hl] at hok
        injection hok with hok
        subst hok
        exact ⟨hlen, fun _ h => h, hinv, fun j hj => by cases hj⟩

/-- Soundness of `validate_3d_node`: a successful traversal only marks
nodes whose reachable node-child subgraph is well-founded (accessible),
and it does mark its root. -/
theorem validate3DNode_ok_sound (b : BSPData) :
    ∀ (fuel node : Nat) (t t2 : List Bool),
      validate3DNode b node fuel t = Except.ok t2 →
      t.length = b.nodes.length →
      node < b.nodes.length →
      (∀ i, t.getD i false = true → Acc (fun j k => NodeEdge b k j) i) →
      t2.length = b.nodes.length
      ∧ (∀ i, t.getD i false = true → t2.getD i false = true)
      ∧ (∀ i, t2.getD i false = true → Acc (fun j k => NodeEdge b k j) i)
      ∧ t2.getD node false = true := by
  intro fuel
  induction fuel with
  | zero =>
    intro node t t2 hok hlen hnode hinv
    replace hok : (if t.getD node false then Except.ok t
        else (Except.error "infinite loop detected when traversing nodes" :
          Except String (List Bool))) = Except.ok t2 := hok
    by_cases hb : t.getD node false
    · rw [if_pos hb] at hok
      injection hok with hok
      subst hok
      exact ⟨hlen, fun _ h => h, hinv, hb⟩
    · rw [if_neg hb] at hok
      cases hok
  | succ f ih =>
    intro node t t2 hok hlen hnode hinv
    rw [validate3DNode_succ_eq] at hok
    by_cases hb : t.getD node false
    · rw [if_pos hb] at hok
      injection hok with hok
      subst hok
      exact ⟨hlen, fun _ h => h, hinv, hb⟩
    · rw [if_neg hb] at hok
      cases hfr : validateChildFn b f (b.nodes.getD node default).frontChild t with
      | error e =>
        rw [hfr] at hok
        replace hok : (Except.error e : Except String (List Bool)) = Except.ok t2 := hok
        cases hok
      | ok t1 =>
        rw [hfr] at hok
        replace hok : (match validateChildFn b f (b.nodes.getD node default).backChild t1 with
            | Except.error e => (Except.error e : Except String (List Bool))
            | Except.ok t2x => Except.ok (t2x.set node true)) = Except.ok t2 := hok
        cases hbk : validateChildFn b f (b.nodes.getD node default).backChild t1 with
        | error e =>
          rw [hbk] at hok
          replace hok : (Except.error e : Except String (List Bool)) = Except.ok t2 := hok
          cases hok
        | ok t2x =>
          rw [hbk] at hok
          replace hok : Except.ok (t2x.set node true) = Except.ok t2 := hok
          injection hok with hok
          subst hok
          obtain ⟨hlen1, hmono1, hinv1, hnode1⟩ :=
            childStepSound b f ih _ t t1 hfr hlen hinv
          obtain ⟨hlen2, hmono2, hinv2, hnode2⟩ :=
            childStepSound b f ih _ t1 t2x hbk hlen1 hinv1
          have hget : b.nodes.get? node = some (b.nodes.getD node default) := by
            rw [List.getD_eq_getElem?_getD, ← List.get?_eq_getElem?]
            cases hx : b.nodes.get? node with
            | none =>
              rw [List.get?_eq_getElem?, List.getElem?_eq_none_iff] at hx
              omega
            | some nd => rfl
          have haccnode : Acc (fun j k => NodeEdge b k j) node := by
            refine Acc.intro node ?_
            intro j hj
            obtain ⟨nd, hnd, hchild⟩ := hj
            rw [hget] at hnd
            injection hnd with hnd
            subst hnd
            cases hchild with
            | inl hfc =>
              obtain ⟨ht2j, _⟩ := hnode1 j hfc
              exact hinv2 j (hmono2 j ht2j)
            | inr hbc =>
              obtain ⟨ht2j, _⟩ := hnode2 j hbc
              exact hinv2 j ht2j
          refine ⟨by rw [List.length_set]; exact hlen2, ?_, ?_, ?_⟩
          · intro i hi
            exact getD_set_mono _ _ _ (hmono2 i (hmono1 i hi))
          · intro i hi
            by_cases hin : i = node
            · subst hin
              exact haccnode
            · rw [List.getD_eq_getElem?_getD,
                List.getElem?_set_ne (fun hx => hin hx.symm),
                ← List.getD_eq_getElem?_getD] at hi
              exact hinv2 i hi
          · exact getD_set_self _ _ (by rw [hlen2]; exact hnode)

/-- Soundness of the node loop of `BSPData::validate`: success marks every
listed root, and marked roots are accessible. -/
theorem validateAllNodes_ok_sound (b : BSPData) :
    ∀ (idxs : List Nat) (t t2 : List Bool),
      validateAllNodes b idxs t = Except.ok t2 →
      t.length = b.nodes.length →
      (∀ i ∈ idxs, i < b.nodes.length) →
      (∀ i, t.getD i false = true → Acc (fun j k => NodeEdge b k j) i) →
      t2.length = b.nodes.length
      ∧ (∀ i, t.getD i false = true → t2.getD i false = true)
      ∧ (∀ i, t2.getD i false = true → Acc (fun j k => NodeEdge b k j) i)
      ∧ (∀ i ∈ idxs, t2.getD i false = true) := by
  intro idxs
  induction idxs with
  | nil =>
    intro t t2 hok hlen _ hinv
    replace hok : Except.ok t = Except.ok t2 := hok
    injection hok with hok
    subst hok
    exact ⟨hlen, fun _ h => h, hinv, by simp⟩
  | cons i rest ih =>
    intro t t2 hok hlen hmem hinv
    replace hok : (match validate3DNode b i (b.nodes.length + 3) t with
      | Except.error e => Except.error e
      | Except.ok tx => validateAllNodes b rest tx) = Except.ok t2 := hok
    cases hstep : validate3DNode b i (b.nodes.length + 3) t with
    | error e =>
      rw [hstep] at hok
      replace hok : (Except.error e : Except String (List Bool)) = Except.ok t2 := hok
      cases hok
    | ok tx =>
      rw [hstep] at hok
      replace hok : validateAllNodes b rest tx = Except.ok t2 := hok
      obtain ⟨hlen1, hmono1, hinv1, hi1⟩ :=
        validate3DNode_ok_sound b _ i t tx hstep hlen
          (hmem i (List.mem_cons_self _ _)) hinv
      obtain ⟨hlen2, hmono2, hinv2, hall2⟩ :=
        ih tx t2 hok hlen1 (fun j hj => hmem j (List.mem_cons_of_mem _ hj)) hinv1
      refine ⟨hlen2, fun j hj => hmono2 j (hmono1 j hj), hinv2, ?_⟩
      intro j hj
      rcases List.mem_cons.mp hj with rfl | hjr
      · exact hmono2 j hi1
      · exact hall2 j hjr

/-- Any transitive chain starts with an edge out of its source. -/
theorem transGen_has_out_edge {α : Type} {r : α → α → Prop} {a c : α}
    (h : Relation.TransGen r a c) : ∃ j, r a j := by
  induction h with
  | single h => exact ⟨_, h⟩
  | tail _ _ ihx => exact ihx

/-- An accessible element admits no self-loop. -/
theorem acc_no_self_loop {α : Type} {R : α → α → Prop} {a : α}
    (h : Acc R a) : ¬ R a a := by
  induction h with
  | intro x _ ihx => exact fun hxx => ihx x hxx hxx

/-- A successful `BSPData::validate` makes every node accessible along the
node-child relation. -/
theorem bspDataValidate_ok_acc (b : BSPData) (s : RendererState)
    (p : AddBSPParameter) (hok : bspDataValidate b s p = Except.ok ()) :
    ∀ i, i < b.nodes.length → Acc (fun j k => NodeEdge b k j) i := by
  intro i hi
  unfold bspDataValidate at hok
  by_cases hemp : b.nodes.isEmpty
  · rw [if_pos hemp] at hok
    cases hok
  · rw [if_neg hemp] at hok
    cases hva : validateAllNodes b (List.range b.nodes.length)
        (List.replicate b.nodes.length false) with
    | error e =>
      rw [hva] at hok
      replace hok : (Except.error e : Except String Unit) = Except.ok () := hok
      cases hok
    | ok tfin =>
      have hrep : ∀ j, (List.replicate b.nodes.length false).getD j false = true →
          Acc (fun j k => NodeEdge b k j) j := by
        intro j hj
        exfalso
        rw [List.getD_eq_getElem?_getD, List.getElem?_replicate] at hj
        by_cases hjl : j < b.nodes.length
        · rw [if_pos hjl] at hj
          exact absurd hj (by simp)
        · rw [if_neg hjl] at hj
          exact absurd hj (by simp)
      obtain ⟨_, _, hinv, hall⟩ := validateAllNodes_ok_sound b _ _ tfin hva
        (by rw [List.length_replicate]) (fun j hj => List.mem_range.mp hj) hrep
      exact hinv i (hall i (List.mem_range.mpr hi))

/-- C3: for every BSP node graph containing a cycle, `BSPData::validate`
returns a data error (hence so does `AddBSPParameter::validate`) — it
cannot loop since the per-root traversal carries a per-node bitset and a
budget of node_count + 3 and every embedded function is total — and an
exhausted budget is reported as the infinite-loop (cycle) error. -/
theorem claim_C3_cycle_is_validation_error (b : BSPData) (s : RendererState)
    (hcyc : HasCycle b) :
    (∀ p : AddBSPParameter, ∃ e, bspDataValidate b s p = Except.error e)
    ∧ (∀ q : AddBSPParameter, q.bspData = b →
        ∃ e, addBSPValidate q s = Except.error e)
    ∧ (∀ node : Nat, ∀ t : List Bool, t.getD node false = false →
        validate3DNode b node 0 t
          = Except.error "infinite loop detected when traversing nodes") := by
  have hmain : ∀ p : AddBSPParameter, ∃ e, bspDataValidate b s p = Except.error e := by
    intro p
    cases hres : bspDataValidate b s p with
    | error e => exact ⟨e, rfl⟩
    | ok u =>
      exfalso
      obtain ⟨n, hn⟩ := hcyc
      obtain ⟨j, nd, hnd, _⟩ := transGen_has_out_edge hn
      have hlt : n < b.nodes.length := by
        rw [List.get?_eq_getElem?] at hnd
        exact (List.getElem?_eq_some_iff.mp hnd).1
      cases u
      have hacc := bspDataValidate_ok_acc b s p hres n hlt
      have haccT : Acc (Relation.TransGen (fun j k => NodeEdge b k j)) n :=
        acc_transGen_iff.mpr hacc
      have hT : Relation.TransGen (fun j k => NodeEdge b k j) n n :=
        Relation.transGen_swap.mp hn
      exact acc_no_self_loop haccT hT
  refine ⟨hmain, ?_, ?_⟩
  · intro q hq
    unfold addBSPValidate
    cases hr : resolveLightmapBitmap q s with
    | error e => exact ⟨e, rfl⟩
    | ok lmr =>
      show ∃ e, (match checkLightmapSets s lmr q.lightmapSets with
          | Except.error e => (Except.error e : Except String Unit)
          | Except.ok _ => bspDataValidate q.bspData s q) = Except.error e
      cases hl : checkLightmapSets s lmr q.lightmapSets with
      | error e => exact ⟨e, rfl⟩
      | ok u =>
        show ∃ e, bspDataValidate q.bspData s q = Except.error e
        rw [hq]
        exact hmain q
  · intro node t h
    have h2 : t[node]?.getD false = false := by
      rw [← List.getD_eq_getElem?_getD]
      exact h
    simp [validate3DNode, h2]

/-- Witness for C3: the two-node graph where nodes 0 and 1 reference each
other has a cycle, and validation reports a data error on it. -/
theorem claim_C3_cycle_witness :
    HasCycle exCycleBSPData ∧
    (∃ e, bspDataValidate exCycleBSPData emptyState exCycleParam
      = Except.error e) := by
  have hcyc : HasCycle exCycleBSPData := by
    have e01 : NodeEdge exCycleBSPData 0 1 :=
      ⟨{ frontChild := some (BSP3DNodeChild.node 1),
         backChild := none, plane := 0 }, rfl, Or.inl rfl⟩
    have e10 : NodeEdge exCycleBSPData 1 0 :=
      ⟨{ frontChild := some (BSP3DNodeChild.node 0),
         backChild := none, plane := 0 }, rfl, Or.inl rfl⟩
    exact ⟨0, Relation.TransGen.head e01 (Relation.TransGen.single e10)⟩
  exact ⟨hcyc,
    (claim_C3_cycle_is_validation_error exCycleBSPData emptyState hcyc).1 exCycleParam⟩

end Mag
